import Mathlib

/-!
A shallow embedding of `src/receptor/buffers/file.py` (class `DurableBuffer`):
the in-memory queue of item descriptors, the dirty/clean manifest events, the
readiness gate, startup recovery, puts, gets, lazy expiration, the sweep
`expire_all`, and the `manifest_writer` flush loop.  File-system and deferred
I/O executor effects are tracked explicitly in the state; timestamps are
naturals (seconds since an arbitrary epoch), and each operation that consults
the clock takes the current time `now` as a parameter in place of
`datetime.datetime.utcnow()`.
-/

namespace Receptor

/-- An item descriptor, the dict `{"path": ..., "expire_time": ...}` built by
`DurableBuffer.put` and carried in the queue and the manifest. -/
structure Item where
  path : String
  expire_time : Nat
deriving DecidableEq

/-- Contents of a manifest file on disk.  The Manifest Codec (the `serde`
module, imported as `json` by `file.py`) is not under `src/`; modelled from
the spec: it encodes the descriptor list to a textual representation that
round-trips through the codec, and any other contents fail to decode.  File
contents are therefore tagged with whether they are a well-formed encoding of
a descriptor list or arbitrary other bytes. -/
inductive FileData where
  | manifest (items : List Item)
  | garbage (s : String)
deriving DecidableEq

/-- Modelled from the spec: `json.loads` of the `serde` codec (not under
`src/`); a well-formed encoding decodes to its descriptor list, anything else
raises `JSONDecodeError`, modelled as `none`. -/
def decodeManifest : FileData → Option (List Item)
  | FileData.manifest items => some items
  | FileData.garbage _ => none

/-- Python exceptions raised by the embedded code. -/
inductive PyError where
  | attributeError
deriving DecidableEq

/-- State of one `DurableBuffer` together with the file-system effects it has
issued: `q` is the `asyncio.Queue` front-first, `manifestDirty` and
`manifestClean` the two `asyncio.Event`s, `ready` the readiness gate,
`manifestFile` the manifest file on disk (`none` when missing), `files` the
payload files written, and `pendingDeletes` the payload deletions actually
handed to the deferred I/O executor. -/
structure BufState where
  q : List Item
  manifestDirty : Bool
  manifestClean : Bool
  ready : Bool
  manifestFile : Option FileData
  files : List String
  pendingDeletes : List String
deriving DecidableEq

/-- State right after `__init__`: empty queue, both manifest events unset,
`ready` unset; the manifest file is whatever the directory already holds. -/
def initState (mf : Option FileData) : BufState :=
  { q := [], manifestDirty := false, manifestClean := false, ready := false,
    manifestFile := mf, files := [], pendingDeletes := [] }

/-- Method `clean`: clears `_manifest_dirty` and sets `_manifest_clean`. -/
def clean (s : BufState) : BufState :=
  { s with manifestDirty := false, manifestClean := true }

/-- Method `dirty`: sets `_manifest_dirty` and clears `_manifest_clean`. -/
def dirty (s : BufState) : BufState :=
  { s with manifestDirty := true, manifestClean := false }

/-- Method `_read_manifest`: a missing file (`FileNotFoundError`) returns
`[]`.  When the file is present, the inner `try` computes `json.loads(data)`
and attempts to return it, but the `finally: return []` clause runs on every
exit of that `try` — including the successful `return` — and replaces the
pending return value, so the call returns `[]` for present files as well,
whether or not they decode. -/
def read_manifest (mf : Option FileData) : List Item :=
  match mf with
  | none => []
  | some data =>
      let _parsed := decodeManifest data
      []

/-- Method `start_manifest`: ensure the message directory (idempotent, not
modelled), read the manifest, push each loaded item onto the queue in order,
then set the `ready` event.  Launching the `manifest_writer` task is modelled
separately by `manifest_cycle`. -/
def start_manifest (s : BufState) : BufState :=
  { s with q := s.q ++ read_manifest s.manifestFile, ready := true }

/-- Method `put_ident`: push the descriptor onto the queue and mark dirty.
There is no wait on the `ready` event. -/
def put_ident (s : BufState) (ident : Item) : BufState :=
  dirty { s with q := s.q ++ [ident] }

/-- Outcome of a call to `put`: suspended on the `ready` gate (no effect yet),
returned after enqueueing, or the deferred payload write raised and the error
propagated to the caller, carrying the state at the raise point. -/
inductive PutResult where
  | blocked (s : BufState)
  | ok (s : BufState)
  | ioError (s : BufState)
deriving DecidableEq

/-- State after a `put` call has returned or suspended. -/
def PutResult.state : PutResult → BufState
  | PutResult.blocked s => s
  | PutResult.ok s => s
  | PutResult.ioError s => s

/-- Method `put`: wait on `ready`; build the descriptor with
`expire_time = utcnow + 5 minutes` and a fresh path under the message
directory (the caller of the model supplies the unique `path`); hand the
payload write to the deferred executor as one unit.  `fileio.Deferrer` is not
under `src/`; modelled from the spec, the deferred unit completes or fails
asynchronously, and `writeOk` selects which.  On success `put_ident` runs; on
failure the exception propagates to the caller before `put_ident` is
reached. -/
def put (s : BufState) (path : String) (now : Nat) (writeOk : Bool) : PutResult :=
  if s.ready then
    let item : Item := { path := path, expire_time := now + 5 * 60 }
    if writeOk then
      PutResult.ok (put_ident { s with files := s.files ++ [path] } item)
    else
      PutResult.ioError s
  else
    PutResult.blocked s

/-- Method `is_expired`: `item["expire_time"] < datetime.datetime.utcnow()`. -/
def is_expired (item : Item) (now : Nat) : Bool :=
  item.expire_time < now

/-- Attribute name holding the deferred executor, as written by `__init__`
(`self.deferrer = fileio.Deferrer(...)`). -/
def initDeferAttr : String := "deferrer"

/-- Attribute name that method `expire` reads for the deferred executor
(`await self._deferrer.defer(...)`). -/
def expireDeferAttr : String := "_deferrer"

/-- Method `expire`: defers `_remove_path(item["path"])` through the executor
attribute it names.  `__init__` only ever sets `self.deferrer`, and `expire`
reads `self._deferrer`, so when the body actually runs the attribute lookup
raises `AttributeError` before any deletion is handed to the executor. -/
def expire (s : BufState) (item : Item) : Except PyError BufState :=
  if expireDeferAttr = initDeferAttr then
    Except.ok { s with pendingDeletes := s.pendingDeletes ++ [item.path] }
  else
    Except.error PyError.attributeError

/-- Outcome of a call to `get`: suspended on `ready`, suspended waiting for an
item on a drained queue, or a descriptor returned. -/
inductive GetResult where
  | notReady (s : BufState)
  | waiting (s : BufState)
  | got (s : BufState) (item : Item)
deriving DecidableEq

/-- Loop body of `get`, structurally recursive on the queue contents: pop the
oldest item and mark dirty; if the item is expired the source calls
`self.expire(item)` without `await`, so the coroutine object is created and
dropped — the deletion in `expire`'s body is never scheduled (nor is its
`AttributeError` raised) and the state changes only by the pop — and the loop
continues; otherwise the item is returned.  The malformed-item branch
(`TypeError`/`KeyError`) cannot arise for well-typed `Item`s. -/
def getLoop (now : Nat) : List Item → BufState → GetResult
  | [], s => GetResult.waiting s
  | item :: rest, s =>
      let s1 := dirty { s with q := rest }
      if is_expired item now then getLoop now rest s1
      else GetResult.got s1 item

/-- Method `get`: wait on `ready`, then run the pop loop over the queue. -/
def get (s : BufState) (now : Nat) : GetResult :=
  if s.ready then getLoop now s.q s else GetResult.notReady s

/-- Loop of `expire_all` over the old queue, oldest first: an expired item
goes through `await self.expire(item)` — here the coroutine IS awaited, so an
exception from it propagates out of `expire_all`, dropping the remainder of
the old queue — and a live item is pushed back onto the new queue; once the
old queue drains, `dirty()` runs. -/
def expire_all_go (now : Nat) : List Item → BufState → BufState × Option PyError
  | [], s => (dirty s, none)
  | item :: rest, s =>
      if is_expired item now then
        match expire s item with
        | Except.ok s1 => expire_all_go now rest s1
        | Except.error e => (s, some e)
      else
        expire_all_go now rest { s with q := s.q ++ [item] }

/-- Method `expire_all`: under the manifest lock, swap `self.q` for an empty
queue and re-process the old contents. -/
def expire_all (s : BufState) (now : Nat) : BufState × Option PyError :=
  expire_all_go now s.q { s with q := [] }

/-- Body of one `manifest_writer` flush under the manifest lock: serialize the
current queue contents and write them to the manifest file, then `clean()`.
On a write failure the exception is caught and logged, `clean()` never runs,
and the loop is not terminated; the model leaves the on-disk file unchanged in
that case. -/
def manifest_flush (s : BufState) (writeOk : Bool) : BufState :=
  if writeOk then clean { s with manifestFile := some (FileData.manifest s.q) }
  else s

/-- One iteration of the `manifest_writer` loop: wait on `_manifest_dirty`
(no effect while the event is unset), flush, then sleep `write_time`. -/
def manifest_cycle (s : BufState) (writeOk : Bool) : BufState :=
  if s.manifestDirty then manifest_flush s writeOk else s

/-- Several iterations of the `manifest_writer` loop, one `writeOk` outcome
per cycle.  Total by construction: no write failure terminates the loop or
the process. -/
def manifest_writer_run (s : BufState) : List Bool → BufState
  | [] => s
  | ok :: rest => manifest_writer_run (manifest_cycle s ok) rest

/-- A sequence of `put` calls whose payload writes all succeed, one per
payload path, all at time `now`. -/
def putN : BufState → List String → Nat → BufState
  | s, [], _ => s
  | s, p :: ps, now => putN (put s p now true).state ps now

/-- A sequence of `n` consecutive `get` calls at time `now`, collecting the
returned descriptors in order; stops early if a call suspends. -/
def getN : BufState → Nat → Nat → List Item × BufState
  | s, 0, _ => ([], s)
  | s, n + 1, now =>
      match get s now with
      | GetResult.got s1 item =>
          let r := getN s1 n now
          (item :: r.1, r.2)
      | GetResult.notReady s1 => ([], s1)
      | GetResult.waiting s1 => ([], s1)

/-- A ready buffer over a fresh directory (state after `start_manifest` on a
missing manifest), used as a concrete instance in witnesses. -/
def readyEmpty : BufState := { initState none with ready := true }

/-- Concrete payload path used in witnesses. -/
def pA : String := "a"

/-- Concrete payload path used in witnesses. -/
def pB : String := "b"

/-- Concrete payload path used in witnesses. -/
def pC : String := "c"

/-- C1: Startup recovery is claimed to push every descriptor recorded in the
manifest onto the queue in the stored order, so a restart over a directory
whose manifest was flushed with K descriptors recovers a queue of length K
with the stored paths.  The code does not: the `finally: return []` in
`_read_manifest` replaces the pending `return json.loads(data)`, so a restart
over a directory whose manifest holds one descriptor recovers an empty queue,
not that descriptor. -/
theorem C1_startup_recovers_nothing :
    (start_manifest (initState (some (FileData.manifest [⟨"m1", 900⟩])))).q = []
    ∧ (start_manifest (initState (some (FileData.manifest [⟨"m1", 900⟩])))).q
        ≠ [(⟨"m1", 900⟩ : Item)] :=
  ⟨rfl, by decide⟩

/-- C2: When the oldest descriptor is expired and a later one is not, `get`
skips the expired descriptor and returns the first non-expired one behind it,
as claimed — but it never schedules deletion of the expired payload:
`self.expire(item)` is invoked without `await`, so the deletion in `expire`'s
body is never handed to the I/O executor and `pendingDeletes` stays empty. -/
theorem C2_expired_payload_never_deleted :
    get { readyEmpty with q := [⟨"a", 0⟩, ⟨"b", 1000⟩] } 500 =
      GetResult.got { readyEmpty with manifestDirty := true } (⟨"b", 1000⟩ : Item)
    ∧ ({ readyEmpty with manifestDirty := true } : BufState).pendingDeletes = [] :=
  ⟨rfl, rfl⟩

/-- C3: `expire_all` on a queue mixing an expired and a live descriptor is
claimed to leave exactly the live descriptors in their original order, delete
every expired payload, and mark the buffer dirty.  Instead the awaited
`expire` raises `AttributeError` (`expire` reads `self._deferrer` but
`__init__` assigns `self.deferrer`), so the sweep aborts with the queue
already swapped out: the live descriptor is lost, no deletion reaches the
executor, and dirty is never set. -/
theorem C3_expire_all_raises_attribute_error :
    (expire_all { readyEmpty with q := [⟨"a", 0⟩, ⟨"b", 1000⟩] } 500).2
        = some PyError.attributeError
    ∧ (expire_all { readyEmpty with q := [⟨"a", 0⟩, ⟨"b", 1000⟩] } 500).1.q = []
    ∧ (expire_all { readyEmpty with q := [⟨"a", 0⟩, ⟨"b", 1000⟩] } 500).1.pendingDeletes = []
    ∧ (expire_all { readyEmpty with q := [⟨"a", 0⟩, ⟨"b", 1000⟩] } 500).1.manifestDirty
        = false :=
  ⟨rfl, rfl, rfl, rfl⟩

/-- C5: A manifest file whose contents do not parse as the expected format is
not fatal: startup completes with an empty queue, the buffer reaches READY,
and a subsequent put succeeds normally (the corruption is logged — logging is
outside the model — rather than propagated). -/
theorem C5_corrupt_manifest_nonfatal (g p : String) (now : Nat) :
    (start_manifest (initState (some (FileData.garbage g)))).q = []
    ∧ (start_manifest (initState (some (FileData.garbage g)))).ready = true
    ∧ put (start_manifest (initState (some (FileData.garbage g)))) p now true =
        PutResult.ok (dirty { start_manifest (initState (some (FileData.garbage g))) with
          q := [⟨p, now + 5 * 60⟩], files := [p] }) :=
  ⟨rfl, rfl, rfl⟩

/-- C6: When the deferred payload write raises, the failure propagates to the
put caller rather than being swallowed, and the buffer state is exactly the
pre-call state: no descriptor appended, dirty flag untouched, because
`put_ident` is only reached after a successful write. -/
theorem C6_put_write_failure_propagates (s : BufState) (p : String) (now : Nat)
    (h : s.ready = true) :
    put s p now false = PutResult.ioError s := by
  simp [put, h]

theorem C6_put_write_failure_propagates_witness :
    readyEmpty.ready = true
    ∧ put readyEmpty pA 0 false = PutResult.ioError readyEmpty :=
  ⟨rfl, C6_put_write_failure_propagates readyEmpty pA 0 rfl⟩

/-- C7: A flush cycle whose manifest write fails leaves the state unchanged —
in particular the dirty flag remains set and the buffer is not marked clean —
the loop continues, and the next cycle retries the write, which on success
stores the queue snapshot and marks clean; no failure terminates the loop. -/
theorem C7_flush_failure_retries (s : BufState) (h : s.manifestDirty = true) :
    manifest_cycle s false = s
    ∧ (manifest_cycle s false).manifestDirty = true
    ∧ manifest_writer_run s [false, true]
        = clean { s with manifestFile := some (FileData.manifest s.q) } := by
  refine ⟨?_, ?_, ?_⟩ <;>
    simp [manifest_cycle, manifest_flush, manifest_writer_run, h]

theorem C7_flush_failure_retries_witness :
    (dirty readyEmpty).manifestDirty = true
    ∧ (manifest_cycle (dirty readyEmpty) false = dirty readyEmpty
        ∧ (manifest_cycle (dirty readyEmpty) false).manifestDirty = true
        ∧ manifest_writer_run (dirty readyEmpty) [false, true]
            = clean { dirty readyEmpty with
                manifestFile := some (FileData.manifest (dirty readyEmpty).q) }) :=
  ⟨rfl, C7_flush_failure_retries (dirty readyEmpty) rfl⟩

/-- C8: Any put leaves the dirty flag set; a subsequently completed flush with
no intervening mutation marks the buffer clean (dirty cleared) and stores in
the manifest file the encoding of the exact current queue contents, which
decodes back to that queue. -/
theorem C8_put_dirty_then_flush_snapshot (s : BufState) (p : String) (now : Nat)
    (h : s.ready = true) :
    (put s p now true).state.manifestDirty = true
    ∧ (manifest_cycle (put s p now true).state true).manifestClean = true
    ∧ (manifest_cycle (put s p now true).state true).manifestDirty = false
    ∧ (manifest_cycle (put s p now true).state true).manifestFile
        = some (FileData.manifest (put s p now true).state.q)
    ∧ decodeManifest (FileData.manifest (put s p now true).state.q)
        = some (put s p now true).state.q := by
  have hput : put s p now true = PutResult.ok
      (put_ident { s with files := s.files ++ [p] } ⟨p, now + 5 * 60⟩) := by
    simp [put, h]
  refine ⟨?_, ?_, ?_, ?_, rfl⟩ <;>
    simp [hput, PutResult.state, put_ident, dirty, manifest_cycle, manifest_flush, clean]

theorem C8_put_dirty_then_flush_snapshot_witness :
    readyEmpty.ready = true
    ∧ ((put readyEmpty pA 0 true).state.manifestDirty = true
        ∧ (manifest_cycle (put readyEmpty pA 0 true).state true).manifestClean = true
        ∧ (manifest_cycle (put readyEmpty pA 0 true).state true).manifestDirty = false
        ∧ (manifest_cycle (put readyEmpty pA 0 true).state true).manifestFile
            = some (FileData.manifest (put readyEmpty pA 0 true).state.q)
        ∧ decodeManifest (FileData.manifest (put readyEmpty pA 0 true).state.q)
            = some (put readyEmpty pA 0 true).state.q) :=
  ⟨rfl, C8_put_dirty_then_flush_snapshot readyEmpty pA 0 rfl⟩

/-- C9: Before the READY event is set, a put suspends with no effect and a get
suspends with no effect (neither pops, pushes, writes a file, nor errors);
`start_manifest` sets READY, after which a put proceeds normally, writing its
payload and enqueueing its descriptor. -/
theorem C9_readiness_gating (s : BufState) (p : String) (now : Nat) (w : Bool)
    (h : s.ready = false) :
    put s p now w = PutResult.blocked s
    ∧ get s now = GetResult.notReady s
    ∧ (start_manifest s).ready = true
    ∧ put (start_manifest s) p now true =
        PutResult.ok (put_ident { start_manifest s with
          files := (start_manifest s).files ++ [p] } ⟨p, now + 5 * 60⟩) := by
  refine ⟨?_, ?_, rfl, rfl⟩
  · simp [put, h]
  · simp [get, h]

theorem C9_readiness_gating_witness :
    (initState none).ready = false
    ∧ (put (initState none) pA 0 true = PutResult.blocked (initState none)
        ∧ get (initState none) 0 = GetResult.notReady (initState none)
        ∧ (start_manifest (initState none)).ready = true
        ∧ put (start_manifest (initState none)) pA 0 true =
            PutResult.ok (put_ident { start_manifest (initState none) with
              files := (start_manifest (initState none)).files ++ [pA] }
              ⟨pA, 0 + 5 * 60⟩)) :=
  ⟨rfl, C9_readiness_gating (initState none) pA 0 true rfl⟩

/-- C10: Unlike put, put_ident performs no wait on the READY gate: even on a
buffer that is not yet ready it appends the descriptor to the queue and marks
the buffer dirty immediately (leaving the gate unset), while a put on the
same state still blocks; a subsequent `start_manifest` appends whatever
`_read_manifest` recovers after the re-injected descriptor. -/
theorem C10_put_ident_ignores_ready (s : BufState) (i : Item) (p : String)
    (now : Nat) (w : Bool) (h : s.ready = false) :
    (put_ident s i).q = s.q ++ [i]
    ∧ (put_ident s i).manifestDirty = true
    ∧ (put_ident s i).ready = false
    ∧ put s p now w = PutResult.blocked s
    ∧ (start_manifest (put_ident s i)).q
        = s.q ++ [i] ++ read_manifest s.manifestFile := by
  refine ⟨rfl, rfl, ?_, ?_, rfl⟩
  · simp [put_ident, dirty, h]
  · simp [put, h]

theorem C10_put_ident_ignores_ready_witness :
    (initState none).ready = false
    ∧ ((put_ident (initState none) ⟨pA, 0⟩).q = (initState none).q ++ [(⟨pA, 0⟩ : Item)]
        ∧ (put_ident (initState none) ⟨pA, 0⟩).manifestDirty = true
        ∧ (put_ident (initState none) ⟨pA, 0⟩).ready = false
        ∧ put (initState none) pB 0 true = PutResult.blocked (initState none)
        ∧ (start_manifest (put_ident (initState none) ⟨pA, 0⟩)).q
            = (initState none).q ++ [(⟨pA, 0⟩ : Item)]
              ++ read_manifest (initState none).manifestFile) :=
  ⟨rfl, C10_put_ident_ignores_ready (initState none) ⟨pA, 0⟩ pB 0 true rfl⟩

/-- A successful put on a ready buffer records the payload file and appends
the fresh descriptor via put_ident. -/
theorem put_ready_eq (s : BufState) (p : String) (now : Nat) (h : s.ready = true) :
    put s p now true =
      PutResult.ok (put_ident { s with files := s.files ++ [p] } ⟨p, now + 5 * 60⟩) := by
  simp [put, h]

/-- After a run of successful puts on a ready buffer, the queue has gained one
descriptor per payload path, in put order, and the buffer is still ready. -/
theorem putN_q_ready (paths : List String) (s : BufState) (now : Nat)
    (h : s.ready = true) :
    (putN s paths now).q = s.q ++ paths.map (fun p => (⟨p, now + 5 * 60⟩ : Item))
    ∧ (putN s paths now).ready = true := by
  induction paths generalizing s with
  | nil => exact ⟨by simp [putN], by simpa [putN] using h⟩
  | cons p ps ih =>
      have hready : (put_ident { s with files := s.files ++ [p] }
          (⟨p, now + 5 * 60⟩ : Item)).ready = true := by
        simp [put_ident, dirty, h]
      obtain ⟨hq, hr⟩ := ih (put_ident { s with files := s.files ++ [p] }
        (⟨p, now + 5 * 60⟩ : Item)) hready
      constructor
      · simp only [putN, put_ready_eq s p now h, PutResult.state]
        rw [hq]
        simp [put_ident, dirty]
      · simp only [putN, put_ready_eq s p now h, PutResult.state]
        exact hr

/-- Successive gets on a ready buffer none of whose queued items are expired
return the whole queue, oldest first. -/
theorem getN_drains_in_order (q : List Item) (s : BufState) (now : Nat)
    (hq : s.q = q) (hr : s.ready = true)
    (hexp : ∀ it ∈ q, is_expired it now = false) :
    (getN s q.length now).1 = q := by
  induction q generalizing s with
  | nil => simp [getN]
  | cons it rest ih =>
      have hget : get s now = GetResult.got (dirty { s with q := rest }) it := by
        simp [get, hr, hq, getLoop, hexp it (List.mem_cons_self it rest)]
      have htail := ih (dirty { s with q := rest }) rfl (by simp [dirty, hr])
        (fun x hx => hexp x (List.mem_cons_of_mem it hx))
      simp [getN, hget, htail]

/-- C4: For a sequence of puts with distinct payload paths on a ready, empty
buffer followed by as many gets, with nothing expired in between, the gets
return the descriptors in exactly the order the puts occurred (FIFO), so the
returned paths are the put paths in order. -/
theorem C4_put_get_fifo (s : BufState) (paths : List String) (now : Nat)
    (hr : s.ready = true) (hq : s.q = []) (hnd : paths.Nodup) :
    ((getN (putN s paths now) paths.length now).1.map Item.path) = paths := by
  obtain ⟨hq', hr'⟩ := putN_q_ready paths s now hr
  rw [hq] at hq'
  simp only [List.nil_append] at hq'
  have hexp : ∀ it ∈ paths.map (fun p => (⟨p, now + 5 * 60⟩ : Item)),
      is_expired it now = false := by
    intro it hit
    simp only [List.mem_map] at hit
    obtain ⟨p, _, rfl⟩ := hit
    simp [is_expired]
  have hlen : paths.length
      = (paths.map (fun p => (⟨p, now + 5 * 60⟩ : Item))).length := by simp
  rw [hlen, getN_drains_in_order _ _ now hq' hr' hexp, List.map_map]
  exact List.map_id paths

theorem C4_put_get_fifo_witness :
    readyEmpty.ready = true ∧ readyEmpty.q = [] ∧ [pA, pB, pC].Nodup
    ∧ ((getN (putN readyEmpty [pA, pB, pC] 0) [pA, pB, pC].length 0).1.map Item.path)
        = [pA, pB, pC] :=
  ⟨rfl, rfl, by decide, C4_put_get_fifo readyEmpty [pA, pB, pC] 0 rfl rfl (by decide)⟩

end Receptor
